import Mathlib

/-!
Shallow embedding of the QR generation/decoding/quality-assessment engine of
`mcp-server-qrcode-enhanced` (files `src/qr-utils.ts`, `src/types.ts`,
`src/index.ts`).

External primitives (the `qrcode`, `qrcode-svg`, `jsqr`, `jimp`, `sharp` and
`canvas` libraries, the filesystem and the clock) are modelled as an explicit
environment `Env`; the repository's own control flow, validation, string
building, statistics bookkeeping and error wrapping are translated directly.
Binary buffers are modelled as opaque strings; the filesystem is an
association list from path to contents (newest entry first, as `List.lookup`
returns the first match, matching overwrite semantics).
-/

/-- Error taxonomy of `types.ts`: `QRValidationError` (code VALIDATION_ERROR),
`QRGenerationError` (GENERATION_ERROR), `QRAnalysisError` (ANALYSIS_ERROR). -/
inductive ErrKind where
  | validation
  | generation
  | analysis
deriving Repr, DecidableEq

/-- A thrown `QRError`: machine-readable kind plus human-readable message. -/
structure QRErr where
  kind : ErrKind
  message : String
deriving Repr, DecidableEq

/-- JS `a || b` for an optional string: `undefined` and the empty string are
falsy. -/
def jsOrString (o : Option String) (d : String) : String :=
  match o with
  | some s => if s = "" then d else s
  | none => d

/-- JS `a || b` for an optional number: `undefined` and `0` are falsy. -/
def jsOrInt (o : Option Int) (d : Int) : Int :=
  match o with
  | some v => if v = 0 then d else v
  | none => d

/-- A `Partial<QRConfig>` as received by `generateBasic`/`generateStyled`:
every field may be absent. -/
structure QRConfigIn where
  size : Option Int := none
  margin : Option Int := none
  errorCorrectionLevel : Option String := none
  format : Option String := none
deriving Repr, DecidableEq

/-- A fully-populated `QRConfig`, the output type of `QRConfigSchema`
(`types.ts` lines 4-9). -/
structure QRConfig where
  size : Int
  margin : Int
  errorCorrectionLevel : String
  format : String
deriving Repr, DecidableEq

/-- `QRConfigSchema.safeParse` (`types.ts` lines 4-9): `size` must lie in
[50, 2000] (default 300), `margin` in [0, 10] (default 1),
`errorCorrectionLevel` in {L,M,Q,H} (default M), `format` in
{png,svg,pdf,jpeg} (default png).  Zod rejects out-of-range values, it never
clamps them. -/
def qrConfigSafeParse (raw : QRConfigIn) : Except String QRConfig :=
  let size := raw.size.getD 300
  let margin := raw.margin.getD 1
  let ecl := raw.errorCorrectionLevel.getD "M"
  let fmt := raw.format.getD "png"
  if size < 50 ∨ size > 2000 then .error "size out of range"
  else if margin < 0 ∨ margin > 10 then .error "margin out of range"
  else if ¬(ecl = "L" ∨ ecl = "M" ∨ ecl = "Q" ∨ ecl = "H") then
    .error "invalid errorCorrectionLevel"
  else if ¬(fmt = "png" ∨ fmt = "svg" ∨ fmt = "pdf" ∨ fmt = "jpeg") then
    .error "invalid format"
  else .ok { size := size, margin := margin, errorCorrectionLevel := ecl, format := fmt }

/-- View a fully-populated config as the partial shape the engine consumes
(the handler passes `validation.data`, so every field is present). -/
def QRConfig.toIn (c : QRConfig) : QRConfigIn :=
  { size := some c.size, margin := some c.margin,
    errorCorrectionLevel := some c.errorCorrectionLevel, format := some c.format }

/-- `Partial<QRStyle>` as received by `generateStyled` (only the fields the
styling path observes: colors and logo path; the remaining fields are
accepted but unused by `applyAdvancedStyling`). -/
structure QRStyleIn where
  foregroundColor : Option String := none
  backgroundColor : Option String := none
  logoPath : Option String := none
deriving Repr, DecidableEq

/-- `metadata` field of a `QRGenerationResult` (`types.ts` lines 103-107). -/
structure GenMetadata where
  generatedAt : String
  originalContent : String
  estimatedSize : Nat
deriving Repr, DecidableEq

/-- `QRGenerationResult` (`types.ts` lines 96-109).  Binary data is modelled
as a string. -/
structure QRGenerationResult where
  success : Bool
  filePath : Option String
  data : String
  format : String
  size : Nat
  contentType : String
  metadata : Option GenMetadata
  error : Option String
deriving Repr, DecidableEq

/-- `metadata` field of a `QRAnalysisResult` (`types.ts` lines 120-125). -/
structure AnalysisMetadata where
  version : Nat
  errorCorrectionLevel : String
  maskPattern : Nat
  modules : Nat
deriving Repr, DecidableEq

/-- Quality block of a `QRAnalysisResult` (`types.ts` lines 115-119). -/
structure QualityResult where
  score : Int
  readability : String
  recommendations : List String
deriving Repr, DecidableEq

/-- `QRAnalysisResult` (`types.ts` lines 111-127). -/
structure QRAnalysisResult where
  success : Bool
  content : Option String
  format : Option String
  quality : Option QualityResult
  metadata : Option AnalysisMetadata
  error : Option String
deriving Repr, DecidableEq

/-- The in-memory statistics record of `QRCodeEnhanced` (`qr-utils.ts`
lines 25-35). -/
structure Statistics where
  totalGenerated : Nat
  byFormat : List (String × Nat)
  byTemplate : List (String × Nat)
  generationTimes : List Int
  sizes : List Nat
  lastGenerated : String
deriving Repr, DecidableEq

/-- `this.statistics.byFormat[k] = (this.statistics.byFormat[k] || 0) + 1`
on an association list. -/
def bumpCount (l : List (String × Nat)) (k : String) : List (String × Nat) :=
  (k, (l.lookup k).getD 0 + 1) :: l.eraseP (fun p => p.1 = k)

/-- `xs.slice(-n)`: the last `n` entries of a list. -/
def lastN (n : Nat) (l : List α) : List α :=
  l.drop (l.length - n)

/-- `updateStatistics` (`qr-utils.ts` lines 519-533): increment the total,
bump the per-format counter, append the elapsed time and the result size,
refresh the timestamp, then truncate each rolling window to its most recent
1000 entries when it exceeds 1000. -/
def updateStatistics (stats : Statistics) (result : QRGenerationResult)
    (generationTime : Int) (now : String) : Statistics :=
  let s1 : Statistics :=
    { stats with
      totalGenerated := stats.totalGenerated + 1
      byFormat := bumpCount stats.byFormat result.format
      generationTimes := stats.generationTimes ++ [generationTime]
      sizes := stats.sizes ++ [result.size]
      lastGenerated := now }
  let s2 : Statistics :=
    if s1.generationTimes.length > 1000 then
      { s1 with generationTimes := lastN 1000 s1.generationTimes }
    else s1
  if s2.sizes.length > 1000 then
    { s2 with sizes := lastN 1000 s2.sizes }
  else s2

/-- Pixel data handed to `jsQR` (built by `Jimp.read` in `decodeFromImage`). -/
structure ImageData where
  data : String
  width : Nat
  height : Nat
deriving Repr, DecidableEq

/-- The structure `jsQR` returns when it finds a symbol. -/
structure DecodedCode where
  data : String
  version : Nat
  errorCorrectionLevel : String
  maskPattern : Nat
  modules : Nat
deriving Repr, DecidableEq

/-- The filesystem: an association list from path to file contents; a write
prepends, so `List.lookup` (first match) sees the newest contents. -/
def FS : Type := List (String × String)

/-- A record of one call into an external encoding primitive, in the order
the arguments are passed at the call site. -/
inductive EncodeCall where
  | toBuffer (content : String) (width margin : Option Int) (ecl : Option String)
  | toDataURL (content : String) (width margin : Option Int) (ecl : Option String)
      (dark light : Option String)
  | svgRender (content : String) (width height padding : Option Int) (ecl : Option String)
deriving Repr, DecidableEq

/-- The external world: the clock, the `QR_OUTPUT_DIR` environment variable,
and the external encode/decode/image primitives the engine delegates to
(`qrcode`, `qrcode-svg`, `canvas`, `jimp`, `jsqr`). -/
structure Env where
  now : String
  elapsedTime : Int
  outputDir : Option String
  toBuffer : String → Option Int → Option Int → Option String → String
  toDataURL : String → Option Int → Option Int → Option String → Option String → Option String → String
  svgRender : String → Option Int → Option Int → Option Int → Option String → String
  canvasToBuffer : Int → String → Option String → String
  loadImageOk : String → Bool
  readPixels : String → Except String ImageData
  jsQR : ImageData → Option DecodedCode

/-- Template record (`QRTemplateSchema`): name, description, category, plus
the bundled style and config. -/
structure QRTemplate where
  name : String
  description : String
  category : String
  style : QRStyleIn
  config : QRConfigIn
deriving Repr, DecidableEq

/-- The mutable per-instance state of `QRCodeEnhanced` plus a trace of calls
into external encoders (`encodeLog`) and a counter standing in for the UUID
generator (`nextId`). -/
structure ServerState where
  stats : Statistics
  templates : List (String × QRTemplate)
  fs : FS
  nextId : Nat
  encodeLog : List EncodeCall

/-- JS `String.prototype.trim()`: strip whitespace from both ends, modelled
on the character list. -/
def jsTrim (s : String) : String :=
  String.mk (((s.data.dropWhile Char.isWhitespace).reverse.dropWhile
    Char.isWhitespace).reverse)

/-- `validateContent` (`qr-utils.ts` lines 298-306): reject empty or
whitespace-only content (`!content || content.trim().length === 0`), then
content longer than 4296 characters. -/
def validateContent (content : String) : Except QRErr Unit :=
  if content = "" ∨ (jsTrim content).length = 0 then
    .error { kind := .validation, message := "Content cannot be empty" }
  else if content.length > 4296 then
    .error { kind := .validation, message := "Content exceeds maximum length of 4296 characters" }
  else
    .ok ()

/-- `generateOutputPath` (`qr-utils.ts` lines 308-312): `QR_OUTPUT_DIR` or
`./qr-codes`, joined with `qr-<uuid>.<format>`; the UUID is modelled by the
state counter. -/
def generateOutputPath (env : Env) (format : String) (id : Nat) : String :=
  jsOrString env.outputDir "./qr-codes" ++ "/qr-" ++ toString id ++ "." ++ format

/-- `generatePNG` (`qr-utils.ts` lines 314-340): delegate to
`QRCode.toBuffer` with the requested size, margin and level, write the
buffer to the output path, and build the success result with the actual
content recorded in `metadata.originalContent`. -/
def generatePNG (env : Env) (content : String) (config : QRConfigIn)
    (outputPath : String) (st : ServerState) : QRGenerationResult × ServerState :=
  let buffer := env.toBuffer content config.size config.margin config.errorCorrectionLevel
  let st1 : ServerState :=
    { st with
      fs := (outputPath, buffer) :: st.fs
      encodeLog := st.encodeLog ++
        [.toBuffer content config.size config.margin config.errorCorrectionLevel] }
  ({ success := true
     filePath := some outputPath
     data := buffer
     format := "png"
     size := buffer.length
     contentType := "image/png"
     metadata := some { generatedAt := env.now, originalContent := content,
                        estimatedSize := buffer.length }
     error := none }, st1)

/-- `generateSVG` (`qr-utils.ts` lines 342-373): delegate to `qrcode-svg`
with width = height = size and padding = margin * 10, write the markup, and
record the actual content in `metadata.originalContent`. -/
def generateSVG (env : Env) (content : String) (config : QRConfigIn)
    (outputPath : String) (st : ServerState) : QRGenerationResult × ServerState :=
  let svgString := env.svgRender content config.size config.size
    (config.margin.map (fun m => m * 10)) config.errorCorrectionLevel
  let st1 : ServerState :=
    { st with
      fs := (outputPath, svgString) :: st.fs
      encodeLog := st.encodeLog ++
        [.svgRender content config.size config.size
          (config.margin.map (fun m => m * 10)) config.errorCorrectionLevel] }
  ({ success := true
     filePath := some outputPath
     data := svgString
     format := "svg"
     size := svgString.length
     contentType := "image/svg+xml"
     metadata := some { generatedAt := env.now, originalContent := content,
                        estimatedSize := svgString.length }
     error := none }, st1)

/-- `generateBasic` (`qr-utils.ts` lines 47-82): validate, derive the output
path from `format || 'png'`, then switch on the format — `'svg'` routes to
`generateSVG`, `'png'` and every other value (the `default` branch, hence
also `'pdf'` and `'jpeg'`) route to `generatePNG` — and record statistics.
Any inner throw (in particular the validation failure) is caught and
rewrapped as a `QRGenerationError`; the state is unchanged on that path. -/
def generateBasic (env : Env) (content : String) (config : QRConfigIn)
    (st : ServerState) : Except QRErr QRGenerationResult × ServerState :=
  match validateContent content with
  | .error e =>
      (.error { kind := .generation,
                message := "Failed to generate basic QR code: " ++ e.message }, st)
  | .ok () =>
      let outputPath := generateOutputPath env (jsOrString config.format "png") st.nextId
      let st0 : ServerState := { st with nextId := st.nextId + 1 }
      let pr :=
        if config.format = some "svg" then
          generateSVG env content config outputPath st0
        else
          generatePNG env content config outputPath st0
      let st2 : ServerState :=
        { pr.2 with stats := updateStatistics pr.2.stats pr.1 env.elapsedTime env.now }
      (.ok pr.1, st2)

/-- `applyAdvancedStyling` (`qr-utils.ts` lines 375-425): draw the base data
URL onto a canvas of side `config.size || 300`; when `style.logoPath` exists
on disk and loads, composite the logo (the pixel arithmetic lives inside the
external canvas primitive `canvasToBuffer`; a logo load failure is swallowed
and styling continues without the logo); write the buffer and return a
result whose `metadata.originalContent` is the fixed literal
`'styled content'`. -/
def applyAdvancedStyling (env : Env) (baseQR : String) (style : QRStyleIn)
    (config : QRConfigIn) (outputPath : String) (st : ServerState) :
    QRGenerationResult × ServerState :=
  let canvasSize := jsOrInt config.size 300
  let logoApplied : Option String :=
    match style.logoPath with
    | some p => if (List.lookup p st.fs).isSome ∧ env.loadImageOk p then some p else none
    | none => none
  let buffer := env.canvasToBuffer canvasSize baseQR logoApplied
  let st1 : ServerState := { st with fs := (outputPath, buffer) :: st.fs }
  ({ success := true
     filePath := some outputPath
     data := buffer
     format := "png"
     size := buffer.length
     contentType := "image/png"
     metadata := some { generatedAt := env.now, originalContent := "styled content",
                        estimatedSize := buffer.length }
     error := none }, st1)

/-- `generateStyled` (`qr-utils.ts` lines 87-131): validate, derive the
output path, call `QRCode.toDataURL` with the requested size, margin, level
and colors (no bounds check of any kind on the config), apply
`applyAdvancedStyling`, and record statistics.  Inner throws are rewrapped
as a `QRGenerationError`. -/
def generateStyled (env : Env) (content : String) (style : QRStyleIn)
    (config : QRConfigIn) (st : ServerState) :
    Except QRErr QRGenerationResult × ServerState :=
  match validateContent content with
  | .error e =>
      (.error { kind := .generation,
                message := "Failed to generate styled QR code: " ++ e.message }, st)
  | .ok () =>
      let outputPath := generateOutputPath env (jsOrString config.format "png") st.nextId
      let baseQR := env.toDataURL content config.size config.margin
        config.errorCorrectionLevel style.foregroundColor style.backgroundColor
      let st1 : ServerState :=
        { st with
          nextId := st.nextId + 1
          encodeLog := st.encodeLog ++
            [.toDataURL content config.size config.margin
              config.errorCorrectionLevel style.foregroundColor style.backgroundColor] }
      let pr := applyAdvancedStyling env baseQR style config outputPath st1
      let st3 : ServerState :=
        { pr.2 with stats := updateStatistics pr.2.stats pr.1 env.elapsedTime env.now }
      (.ok pr.1, st3)

/-- Shallow merge `{...base, ...overrides}` of two partial styles: an
override field wins when present. -/
def mergeStyle (base overrides : QRStyleIn) : QRStyleIn :=
  { foregroundColor := overrides.foregroundColor.orElse (fun _ => base.foregroundColor)
    backgroundColor := overrides.backgroundColor.orElse (fun _ => base.backgroundColor)
    logoPath := overrides.logoPath.orElse (fun _ => base.logoPath) }

/-- Shallow merge `{...base, ...overrides}` of two partial configs. -/
def mergeConfig (base overrides : QRConfigIn) : QRConfigIn :=
  { size := overrides.size.orElse (fun _ => base.size)
    margin := overrides.margin.orElse (fun _ => base.margin)
    errorCorrectionLevel :=
      overrides.errorCorrectionLevel.orElse (fun _ => base.errorCorrectionLevel)
    format := overrides.format.orElse (fun _ => base.format) }

/-- `generateFromTemplate` (`qr-utils.ts` lines 260-279): look the template
up by name (a missing template throws `QRValidationError`), merge the
overrides over its style and config, delegate to `generateStyled`, then bump
the per-template usage counter. -/
def generateFromTemplate (env : Env) (content : String) (templateName : String)
    (styleOverrides : QRStyleIn) (configOverrides : QRConfigIn) (st : ServerState) :
    Except QRErr QRGenerationResult × ServerState :=
  match List.lookup templateName st.templates with
  | none =>
      (.error { kind := .validation, message := "Template not found: " ++ templateName }, st)
  | some tpl =>
      let mergedStyle := mergeStyle tpl.style styleOverrides
      let mergedConfig := mergeConfig tpl.config configOverrides
      match generateStyled env content mergedStyle mergedConfig st with
      | (.error e, st1) => (.error e, st1)
      | (.ok result, st1) =>
          (.ok result,
           { st1 with stats :=
              { st1.stats with byTemplate := bumpCount st1.stats.byTemplate templateName } })

/-- `decodeFromImage` (`qr-utils.ts` lines 160-203): a missing file throws a
`QRAnalysisError` (rewrapped by the surrounding catch, so the message is the
wrapped one); an unreadable image also escalates to `QRAnalysisError`; a
readable image with no symbol returns the soft `success:false` result with a
human-readable reason; a found symbol yields content plus structural
metadata. -/
def decodeFromImage (env : Env) (fs : FS) (imagePath : String) :
    Except QRErr QRAnalysisResult :=
  match List.lookup imagePath fs with
  | none =>
      .error { kind := .analysis,
               message := "Failed to decode QR code: Image file not found: " ++ imagePath }
  | some bytes =>
      match env.readPixels bytes with
      | .error msg =>
          .error { kind := .analysis, message := "Failed to decode QR code: " ++ msg }
      | .ok imageData =>
          match env.jsQR imageData with
          | none =>
              .ok { success := false, content := none, format := none,
                    quality := none, metadata := none,
                    error := some "No QR code found in image" }
          | some code =>
              .ok { success := true, content := some code.data, format := some "text",
                    quality := none,
                    metadata := some { version := code.version,
                                       errorCorrectionLevel := code.errorCorrectionLevel,
                                       maskPattern := code.maskPattern,
                                       modules := code.modules },
                    error := none }

/-- Image metadata as returned by `sharp(...).metadata()`. -/
structure ImageMeta where
  width : Nat
  height : Nat
deriving Repr, DecidableEq

/-- One channel of `sharp(...).stats()`. -/
structure ChannelStat where
  min : Int
  max : Int
deriving Repr, DecidableEq

/-- `sharp(...).stats()`: the per-channel statistics. -/
structure ImageStats where
  channels : List ChannelStat
deriving Repr, DecidableEq

/-- `assessQuality` (`qr-utils.ts` lines 487-517): start at 100; subtract 20
when either dimension is below 200; subtract 30 when channel 0's max − min
is below 128 (when there is no channel 0 the JS comparison `NaN < 128` is
false, so nothing is subtracted); subtract 10 when the content exceeds 1000
characters; derive the readability tier from the running score; return the
score clamped to at least 0. -/
def assessQuality (metadata : ImageMeta) (stats : ImageStats) (content : String) :
    QualityResult :=
  let score0 : Int := 100
  let p1 : Int × List String :=
    if metadata.width < 200 ∨ metadata.height < 200 then
      (score0 - 20, ["Increase image resolution for better readability"])
    else (score0, [])
  let p2 : Int × List String :=
    match stats.channels.head? with
    | some c =>
        if c.max - c.min < 128 then
          (p1.1 - 30, p1.2 ++ ["Improve contrast between foreground and background"])
        else p1
    | none => p1
  let p3 : Int × List String :=
    if content.length > 1000 then
      (p2.1 - 10, p2.2 ++ ["Consider reducing content length for better reliability"])
    else p2
  let readability :=
    if p3.1 ≥ 90 then "excellent"
    else if p3.1 ≥ 70 then "good"
    else if p3.1 ≥ 50 then "fair"
    else "poor"
  { score := max 0 p3.1, readability := readability, recommendations := p3.2 }

/-- The quality score exactly as claim C6 words it: start at 100, subtract
20 / 30 / 10 for the three defects, clamp to at least 0. -/
def claimQualityScore (metadata : ImageMeta) (stats : ImageStats) (content : String) : Int :=
  let d1 : Int := if metadata.width < 200 ∨ metadata.height < 200 then 20 else 0
  let d2 : Int :=
    match stats.channels.head? with
    | some c => if c.max - c.min < 128 then 30 else 0
    | none => 0
  let d3 : Int := if content.length > 1000 then 10 else 0
  max 0 (100 - d1 - d2 - d3)

/-- The readability tier exactly as claim C6 words it, from the clamped
score. -/
def claimQualityTier (metadata : ImageMeta) (stats : ImageStats) (content : String) : String :=
  let s := claimQualityScore metadata stats content
  if s ≥ 90 then "excellent"
  else if s ≥ 70 then "good"
  else if s ≥ 50 then "fair"
  else "poor"

/-- WiFi credentials after `WiFiSchema` parsing (`types.ts` lines 43-48):
`security` defaulted to WPA2, `hidden` defaulted to false. -/
structure WiFi where
  ssid : String
  password : Option String
  security : String
  hidden : Bool
deriving Repr, DecidableEq

/-- Raw WiFi arguments before schema parsing: only `ssid` is required. -/
structure WiFiRaw where
  ssid : String
  password : Option String := none
  security : Option String := none
  hidden : Option Bool := none
deriving Repr, DecidableEq

/-- `WiFiSchema.safeParse`: `security` must be one of the five enum values
(default WPA2); `hidden` defaults to false. -/
def wifiSchemaParse (raw : WiFiRaw) : Except String WiFi :=
  let sec := raw.security.getD "WPA2"
  if sec = "WEP" ∨ sec = "WPA" ∨ sec = "WPA2" ∨ sec = "WPA3" ∨ sec = "nopass" then
    .ok { ssid := raw.ssid, password := raw.password, security := sec,
          hidden := raw.hidden.getD false }
  else .error "invalid security"

/-- `buildWiFiContent` (`qr-utils.ts` lines 456-458): the template literal
with `wifi.password || ''` and `wifi.hidden ? 'true' : 'false'`. -/
def buildWiFiContent (wifi : WiFi) : String :=
  "WIFI:T:" ++ wifi.security ++ ";S:" ++ wifi.ssid ++ ";P:" ++
    jsOrString wifi.password "" ++ ";H:" ++
    (if wifi.hidden then "true" else "false") ++ ";;"

/-- `handleGenerateBasic` (`index.ts` lines 507-527): run
`QRConfigSchema.safeParse` on the arguments; a parse failure throws
`QRValidationError('Invalid basic QR configuration')` before anything else
runs; on success the fully-populated parsed config is handed to
`generateBasic`. -/
def handleGenerateBasic (env : Env) (content : String) (raw : QRConfigIn)
    (st : ServerState) : Except QRErr QRGenerationResult × ServerState :=
  match qrConfigSafeParse raw with
  | .error _ =>
      (.error { kind := .validation, message := "Invalid basic QR configuration" }, st)
  | .ok cfg => generateBasic env content cfg.toIn st

/-- One item of a batch request (`BatchQRSchema`): content plus an optional
per-item style. -/
structure BatchItem where
  content : String
  style : Option QRStyleIn := none
deriving Repr, DecidableEq

/-- One entry of the batch result list built by `handleGenerateBatch`. -/
structure BatchEntry where
  index : Nat
  success : Bool
  file : Option String
  error : Option String
deriving Repr, DecidableEq

/-- The sequential loop of `handleGenerateBatch` (`index.ts` lines 800-816):
each item is generated with `generateStyled(item.content, item.style || {},
{...baseConfig, format: args.format})`; a throw is caught per item and
recorded as a failure entry, and the loop continues with the next item. -/
def batchLoop (env : Env) (cfg : QRConfigIn) :
    List BatchItem → Nat → ServerState → List BatchEntry × ServerState
  | [], _, st => ([], st)
  | item :: rest, i, st =>
      let step :=
        match generateStyled env item.content (item.style.getD {}) cfg st with
        | (.ok res, st1) =>
            (({ index := i, success := true, file := res.filePath,
                error := none } : BatchEntry), st1)
        | (.error e, st1) =>
            (({ index := i, success := false, file := none,
                error := some e.message } : BatchEntry), st1)
      let tail := batchLoop env cfg rest (i + 1) step.2
      (step.1 :: tail.1, tail.2)

/-- `handleGenerateBatch` (`index.ts` lines 789-835): process the items
strictly sequentially, then aggregate `successful` as the number of success
entries and `failed` as the rest.  The config handed to every item is the
base config with its `format` field replaced by the batch-level format
argument (the spread `{...args.baseConfig, format: args.format}` overwrites
`format` even when the argument is absent). -/
def handleGenerateBatch (env : Env) (items : List BatchItem)
    (baseConfig : Option QRConfigIn) (format : Option String) (st : ServerState) :
    (List BatchEntry × Nat × Nat) × ServerState :=
  let cfg : QRConfigIn := { baseConfig.getD {} with format := format }
  let pr := batchLoop env cfg items 0 st
  let successful := (pr.1.filter (fun r => r.success)).length
  let failed := pr.1.length - successful
  ((pr.1, successful, failed), pr.2)

/-- The two built-in templates registered by `initializeDefaultTemplates`
(`qr-utils.ts` lines 535-577), restricted to the fields the model tracks. -/
def defaultTemplates : List (String × QRTemplate) :=
  [("business",
    { name := "business", description := "Professional business card style",
      category := "business",
      style := { foregroundColor := some "#1a365d", backgroundColor := some "#ffffff" }
      config := { size := some 300, margin := some 2,
                  errorCorrectionLevel := some "M", format := some "png" } }),
   ("social",
    { name := "social", description := "Colorful social media style",
      category := "social",
      style := { foregroundColor := some "#e53e3e", backgroundColor := some "#fff5f5" }
      config := { size := some 400, margin := some 1,
                  errorCorrectionLevel := some "M", format := some "png" } })]

/-- The statistics record as the constructor initialises it. -/
def initStats (now : String) : Statistics :=
  { totalGenerated := 0, byFormat := [], byTemplate := [],
    generationTimes := [], sizes := [], lastGenerated := now }

/-- A fresh `QRCodeEnhanced` instance: empty filesystem, zeroed statistics,
the two default templates. -/
def initState (now : String) : ServerState :=
  { stats := initStats now, templates := defaultTemplates, fs := [],
    nextId := 0, encodeLog := [] }

/-- A concrete environment for evaluating the engine on closed inputs: the
external QR encoder is the identity on the payload and the decoder reads it
back, so the external round-trip assumption holds by construction. -/
def unitEnv : Env :=
  { now := "2026-01-01T00:00:00.000Z"
    elapsedTime := 5
    outputDir := none
    toBuffer := fun content _ _ _ => content
    toDataURL := fun content _ _ _ _ _ => "data:" ++ content
    svgRender := fun content _ _ _ _ => "<svg>" ++ content ++ "</svg>"
    canvasToBuffer := fun _ baseQR _ => baseQR
    loadImageOk := fun _ => true
    readPixels := fun b => .ok { data := b, width := 300, height := 300 }
    jsQR := fun img => some { data := img.data, version := 1,
                              errorCorrectionLevel := "M", maskPattern := 0,
                              modules := 21 } }

/-- `unitEnv` with a decoder that never finds a symbol. -/
def noSymbolEnv : Env :=
  { unitEnv with jsQR := fun _ => none }

/-- The external primitives round-trip: decoding the pixels of an encoded
buffer recovers the payload.  This is the correctness assumption on the
out-of-scope `qrcode`/`jimp`/`jsqr` primitives. -/
def primRoundTrip (env : Env) : Prop :=
  ∀ (s : String) (w m : Option Int) (e : Option String),
    ∃ img code, env.readPixels (env.toBuffer s w m e) = .ok img ∧
      env.jsQR img = some code ∧ code.data = s

/-- C1: the claim says a request with `config.format = 'pdf'` fails fast with
an "unsupported format" error and never silently falls back to PNG.  The
code does the opposite: `'pdf'` hits the `default` branch of the switch in
`generateBasic` (`qr-utils.ts` lines 63-71), so the call succeeds, produces
a PNG result (format `'png'`, PNG bytes) written to a `.pdf`-named path, and
the tool handler's schema accepts `'pdf'` without complaint.  This theorem
evaluates the code at the failing input. -/
theorem pdf_silently_produces_png :
    (Except.map (fun r => (r.success, r.format, r.filePath, r.contentType))
      (generateBasic unitEnv "hello" { format := some "pdf" } (initState "t0")).1)
      = .ok (true, "png", some "./qr-codes/qr-0.pdf", "image/png") ∧
    (Except.map (fun r => (r.success, r.format))
      (handleGenerateBasic unitEnv "hello" { format := some "pdf" } (initState "t0")).1)
      = .ok (true, "png") :=
  ⟨rfl, rfl⟩

/-- C2 counterexample: generating from the empty string fails, but the error
the caller sees is a `QRGenerationError` (code GENERATION_ERROR), not a
`ValidationError`: the `QRValidationError` thrown by `validateContent` is
caught by the surrounding catch in `generateBasic` (`qr-utils.ts` lines
76-81) and rewrapped. -/
theorem empty_content_error_is_generation_kind :
    (generateBasic unitEnv "" {} (initState "t0")).1 =
      .error { kind := .generation,
               message := "Failed to generate basic QR code: Content cannot be empty" } ∧
    ErrKind.generation ≠ ErrKind.validation :=
  ⟨rfl, by decide⟩

/-- C2 (amended): for every empty or whitespace-only content string,
`generateBasic` fails with a `QRGenerationError` wrapping the validation
message "Content cannot be empty"; the validation short-circuits before any
encode attempt and the returned state is exactly the input state, so no file
is written, no encoder is called and the statistics are unchanged. -/
theorem empty_content_rejected (env : Env) (content : String) (config : QRConfigIn)
    (st : ServerState) (h : (jsTrim content).length = 0) :
    generateBasic env content config st =
      (.error { kind := .generation,
                message := "Failed to generate basic QR code: Content cannot be empty" }, st) := by
  have hvc : validateContent content =
      .error { kind := .validation, message := "Content cannot be empty" } := by
    unfold validateContent
    rw [if_pos (Or.inr h)]
  unfold generateBasic
  rw [hvc]
  rfl

/-- C2 witness: the amended theorem applied to the empty string. -/
theorem empty_content_rejected_witness :
    (jsTrim "").length = 0 ∧
    generateBasic unitEnv "" {} (initState "t0") =
      (.error { kind := .generation,
                message := "Failed to generate basic QR code: Content cannot be empty" },
       initState "t0") :=
  ⟨rfl, empty_content_rejected unitEnv "" {} (initState "t0") rfl⟩

/-- C5: `buildWiFiContent` (`qr-utils.ts` lines 456-458) produces exactly
the single-line grammar `WIFI:T:<security>;S:<ssid>;P:<password-or-empty>;
H:<true|false>;;`, with `P` empty when no password is given and `H` equal
to `false` when `hidden` is false (schema-defaulted when absent); in
particular the credentials `{ssid:"Guest", security:"nopass"}` yield
`WIFI:T:nopass;S:Guest;P:;H:false;;`. -/
theorem wifi_payload_grammar :
    (∀ w : WiFi, buildWiFiContent w =
      "WIFI:T:" ++ w.security ++ ";S:" ++ w.ssid ++ ";P:" ++ w.password.getD "" ++
      ";H:" ++ (if w.hidden then "true" else "false") ++ ";;") ∧
    (wifiSchemaParse { ssid := "Guest", security := some "nopass" }).map buildWiFiContent
      = .ok "WIFI:T:nopass;S:Guest;P:;H:false;;" := by
  constructor
  · intro w
    unfold buildWiFiContent jsOrString
    rcases w.password with _ | p
    · rfl
    · by_cases hp : p = "" <;> simp [hp]
  · rfl

/-- C6: `assessQuality` computes exactly the claimed score — start at 100,
subtract 20 when either dimension is below 200 px, subtract 30 when the
first channel's max − min is below 128, subtract 10 when the decoded
content exceeds 1000 characters, clamp to at least 0 — and maps it to the
claimed tier (≥90 excellent, ≥70 good, ≥50 fair, else poor); identical
inputs always yield the identical result. -/
theorem quality_score_formula (m : ImageMeta) (s : ImageStats) (c : String) :
    (assessQuality m s c).score = claimQualityScore m s c ∧
    (assessQuality m s c).readability = claimQualityTier m s c ∧
    (∀ m2 s2 c2, m = m2 → s = s2 → c = c2 →
      assessQuality m s c = assessQuality m2 s2 c2) := by
  refine ⟨?_, ?_, ?_⟩
  · unfold assessQuality claimQualityScore
    rcases hc : s.channels.head? with _ | ch <;>
      simp only [hc] <;> split_ifs <;> decide
  · unfold assessQuality claimQualityTier claimQualityScore
    rcases hc : s.channels.head? with _ | ch <;>
      simp only [hc] <;> split_ifs <;> first | decide | omega
  · intro m2 s2 c2 h1 h2 h3
    subst h1; subst h2; subst h3
    rfl

/-- C6 witness: the formula theorem applied at a concrete input (240×240
image, full-contrast channel, short content: score 100, tier excellent),
with the determinism conjunct discharged at the same input. -/
theorem quality_score_formula_witness :
    (assessQuality { width := 240, height := 240 }
        { channels := [{ min := 0, max := 255 }] } "hello").score =
      claimQualityScore { width := 240, height := 240 }
        { channels := [{ min := 0, max := 255 }] } "hello" ∧
    assessQuality { width := 240, height := 240 }
        { channels := [{ min := 0, max := 255 }] } "hello" =
      assessQuality { width := 240, height := 240 }
        { channels := [{ min := 0, max := 255 }] } "hello" :=
  ⟨(quality_score_formula _ _ _).1,
   (quality_score_formula { width := 240, height := 240 }
      { channels := [{ min := 0, max := 255 }] } "hello").2.2 _ _ _ rfl rfl rfl⟩

/-- C8: decoding a path with no file behind it is a hard `QRAnalysisError`
(the thrown error, rewrapped by the surrounding catch, keeps the analysis
kind), while a readable image in which the decoder finds no symbol is the
soft structured result `success:false` with a human-readable reason and no
exception. -/
theorem decode_missing_vs_nosymbol (env : Env) (fs : FS) (p : String) :
    (List.lookup p fs = none →
      decodeFromImage env fs p =
        .error { kind := .analysis,
                 message := "Failed to decode QR code: Image file not found: " ++ p }) ∧
    (∀ bytes img, List.lookup p fs = some bytes → env.readPixels bytes = .ok img →
      env.jsQR img = none →
      decodeFromImage env fs p =
        .ok { success := false, content := none, format := none, quality := none,
              metadata := none, error := some "No QR code found in image" }) := by
  constructor
  · intro h
    unfold decodeFromImage
    rw [h]
  · intro bytes img h1 h2 h3
    unfold decodeFromImage
    rw [h1]
    dsimp only
    rw [h2]
    dsimp only
    rw [h3]

/-- C8 witness: the theorem applied to a missing path on an empty
filesystem and to a stored image under a decoder that finds no symbol. -/
theorem decode_missing_vs_nosymbol_witness :
    (List.lookup "missing.png" ([] : FS) = none ∧
      decodeFromImage unitEnv [] "missing.png" =
        .error { kind := .analysis,
                 message := "Failed to decode QR code: Image file not found: missing.png" }) ∧
    (List.lookup "a.png" ([("a.png", "xx")] : FS) = some "xx" ∧
      noSymbolEnv.readPixels "xx" = .ok { data := "xx", width := 300, height := 300 } ∧
      noSymbolEnv.jsQR { data := "xx", width := 300, height := 300 } = none ∧
      decodeFromImage noSymbolEnv [("a.png", "xx")] "a.png" =
        .ok { success := false, content := none, format := none, quality := none,
              metadata := none, error := some "No QR code found in image" }) :=
  ⟨⟨rfl, (decode_missing_vs_nosymbol unitEnv [] "missing.png").1 rfl⟩,
   ⟨rfl, rfl, rfl,
    (decode_missing_vs_nosymbol noSymbolEnv [("a.png", "xx")] "a.png").2
      "xx" { data := "xx", width := 300, height := 300 } rfl rfl rfl⟩⟩

/-- When validation passes, `generateStyled` succeeds and the result's
`metadata.originalContent` is the literal written by
`applyAdvancedStyling`. -/
theorem generateStyled_ok_shape (env : Env) (content : String) (style : QRStyleIn)
    (config : QRConfigIn) (st : ServerState) (hv : validateContent content = .ok ()) :
    ∃ r st2, generateStyled env content style config st = (.ok r, st2) ∧
      r.metadata.map (fun md => md.originalContent) = some "styled content" := by
  unfold generateStyled
  rw [hv]
  exact ⟨_, _, rfl, rfl⟩

/-- C10: every styled generation — including the template path, which
delegates to `generateStyled` — returns `metadata.originalContent` equal to
the fixed literal `'styled content'` (`qr-utils.ts` line 421) regardless of
the input content, whereas the basic PNG and SVG paths record the actual
input string (`qr-utils.ts` lines 336 and 369). -/
theorem styled_metadata_literal :
    (∀ env content style config st, validateContent content = .ok () →
      Except.map (fun r => r.metadata.map (fun md => md.originalContent))
        (generateStyled env content style config st).1 = .ok (some "styled content")) ∧
    (∀ env content name so co st, validateContent content = .ok () →
      (List.lookup name st.templates).isSome = true →
      Except.map (fun r => r.metadata.map (fun md => md.originalContent))
        (generateFromTemplate env content name so co st).1 = .ok (some "styled content")) ∧
    (∀ env content config path st,
      (generatePNG env content config path st).1.metadata.map
        (fun md => md.originalContent) = some content) ∧
    (∀ env content config path st,
      (generateSVG env content config path st).1.metadata.map
        (fun md => md.originalContent) = some content) := by
  refine ⟨?_, ?_, ?_, ?_⟩
  · intro env content style config st hv
    obtain ⟨r, st2, he, hm⟩ := generateStyled_ok_shape env content style config st hv
    rw [he]
    simp [Except.map, hm]
  · intro env content name so co st hv hl
    rcases hmatch : List.lookup name st.templates with _ | tpl
    · rw [hmatch] at hl; simp at hl
    · unfold generateFromTemplate
      rw [hmatch]
      dsimp only
      obtain ⟨r, st2, he, hm⟩ := generateStyled_ok_shape env content
        (mergeStyle tpl.style so) (mergeConfig tpl.config co) st hv
      rw [he]
      simp [Except.map, hm]
  · intro env content config path st; rfl
  · intro env content config path st; rfl

/-- C10 witness: the theorem applied with the unit environment, both for a
direct styled generation and for the built-in business template, alongside
the contrasting PNG path recording the actual content. -/
theorem styled_metadata_literal_witness :
    validateContent "hi" = .ok () ∧
    (List.lookup "business" (initState "t0").templates).isSome = true ∧
    Except.map (fun r => r.metadata.map (fun md => md.originalContent))
      (generateStyled unitEnv "hi" {} {} (initState "t0")).1 = .ok (some "styled content") ∧
    Except.map (fun r => r.metadata.map (fun md => md.originalContent))
      (generateFromTemplate unitEnv "hi" "business" {} {} (initState "t0")).1 =
        .ok (some "styled content") ∧
    (generatePNG unitEnv "hi" {} "p.png" (initState "t0")).1.metadata.map
      (fun md => md.originalContent) = some "hi" :=
  ⟨rfl, rfl,
   styled_metadata_literal.1 unitEnv "hi" {} {} (initState "t0") rfl,
   styled_metadata_literal.2.1 unitEnv "hi" "business" {} {} (initState "t0") rfl rfl,
   styled_metadata_literal.2.2.1 unitEnv "hi" {} "p.png" (initState "t0")⟩

/-- The batch loop always emits exactly one entry per item. -/
theorem batchLoop_length (env : Env) (cfg : QRConfigIn) :
    ∀ (items : List BatchItem) (i : Nat) (st : ServerState),
      (batchLoop env cfg items i st).1.length = items.length := by
  intro items
  induction items with
  | nil => intro i st; rfl
  | cons item rest ih =>
      intro i st
      unfold batchLoop
      simp [ih]

/-- The batch loop indexes its entries consecutively from the start index. -/
theorem batchLoop_indices (env : Env) (cfg : QRConfigIn) :
    ∀ (items : List BatchItem) (i : Nat) (st : ServerState),
      (batchLoop env cfg items i st).1.map (fun r => r.index) =
        List.range' i items.length := by
  intro items
  induction items with
  | nil => intro i st; rfl
  | cons item rest ih =>
      intro i st
      unfold batchLoop
      rcases hg : generateStyled env item.content (item.style.getD {}) cfg st with ⟨res, st1⟩
      rcases res with e | v <;>
        simp [hg, ih, List.range'_succ i rest.length 1]

/-- C9: batch generation processes its items strictly sequentially and a
failure of one item never aborts the rest — the result list has exactly one
entry per item, indexed in order, `successCount` is the number of success
entries and `failedCount` the number of failures, and they sum to the item
count; concretely, a batch of 3 whose second item has invalid (empty)
content yields entries success/failure/success with successCount 2 and
failedCount 1. -/
theorem batch_partial_failure_isolation :
    (∀ (env : Env) (items : List BatchItem) (bc : Option QRConfigIn)
        (fmt : Option String) (st : ServerState),
      (handleGenerateBatch env items bc fmt st).1.1.length = items.length ∧
      (handleGenerateBatch env items bc fmt st).1.1.map (fun r => r.index) =
        List.range items.length ∧
      (handleGenerateBatch env items bc fmt st).1.2.1 =
        ((handleGenerateBatch env items bc fmt st).1.1.filter (fun r => r.success)).length ∧
      (handleGenerateBatch env items bc fmt st).1.2.1 +
        (handleGenerateBatch env items bc fmt st).1.2.2 = items.length) ∧
    ((handleGenerateBatch unitEnv
        [{ content := "a" }, { content := "" }, { content := "b" }]
        none none (initState "t0")).1.1.map (fun r => (r.index, r.success)) =
      [(0, true), (1, false), (2, true)] ∧
     (handleGenerateBatch unitEnv
        [{ content := "a" }, { content := "" }, { content := "b" }]
        none none (initState "t0")).1.2 = (2, 1)) := by
  constructor
  · intro env items bc fmt st
    have key : ∀ (L : List BatchEntry), L.length = items.length →
        (L.filter (fun r => r.success)).length +
          (L.length - (L.filter (fun r => r.success)).length) = items.length := by
      intro L h
      have := List.length_filter_le (fun r => r.success) L
      omega
    unfold handleGenerateBatch
    dsimp only
    refine ⟨batchLoop_length env _ items 0 st, ?_, rfl, ?_⟩
    · rw [List.range_eq_range']
      exact batchLoop_indices env _ items 0 st
    · exact key _ (batchLoop_length env _ items 0 st)
  · exact ⟨rfl, rfl⟩

/-- C3 counterexample: the styled generation path never checks the config
bounds.  With `size = 5000` (far outside 50–2000) `generateStyled` is not
rejected: it succeeds and the external encoder is invoked with the raw
width 5000, so "every generation call ... is rejected before any encoding
happens" is false on the code. -/
theorem styled_size_not_rejected :
    (Except.map (fun r => r.success)
      (generateStyled unitEnv "x" {} { size := some 5000 } (initState "t0")).1
      = .ok true) ∧
    (generateStyled unitEnv "x" {} { size := some 5000 } (initState "t0")).2.encodeLog
      = [.toDataURL "x" (some 5000) none none none none] ∧
    ((5000 : Int) < 50 ∨ (2000 : Int) < 5000) :=
  ⟨rfl, rfl, Or.inr (by norm_num)⟩

/-- C3 (amended): the bounds check lives in the basic tool handler's schema
parse, not in the engine.  (a) A basic generation request whose explicit
`size` is outside 50–2000 or whose explicit `margin` is outside 0–10 is
rejected with a `QRValidationError` before anything runs — the state, hence
the encode log, the filesystem and the statistics, is returned untouched.
(b) Values are never clamped: a successful parse returns the requested
`size` and `margin` verbatim (defaults 300 and 1 only when unset), and they
are then within bounds.  (c) On the PNG path the encoder receives exactly
the parsed `size` and `margin`.  The styled generation path performs no
such check (see the counterexample). -/
theorem basic_config_bounds_enforced :
    (∀ (env : Env) (st : ServerState) (content : String) (raw : QRConfigIn),
      ((∃ v, raw.size = some v ∧ (v < 50 ∨ 2000 < v)) ∨
       (∃ m, raw.margin = some m ∧ (m < 0 ∨ 10 < m))) →
      handleGenerateBasic env content raw st =
        (.error { kind := .validation, message := "Invalid basic QR configuration" }, st)) ∧
    (∀ (raw : QRConfigIn) (cfg : QRConfig), qrConfigSafeParse raw = .ok cfg →
      cfg.size = raw.size.getD 300 ∧ cfg.margin = raw.margin.getD 1 ∧
      50 ≤ cfg.size ∧ cfg.size ≤ 2000 ∧ 0 ≤ cfg.margin ∧ cfg.margin ≤ 10) ∧
    (∀ (env : Env) (st : ServerState) (content : String) (raw : QRConfigIn) (cfg : QRConfig),
      qrConfigSafeParse raw = .ok cfg → validateContent content = .ok () →
      cfg.format = "png" →
      (handleGenerateBasic env content raw st).2.encodeLog =
        st.encodeLog ++ [.toBuffer content (some cfg.size) (some cfg.margin)
          (some cfg.errorCorrectionLevel)]) := by
  refine ⟨?_, ?_, ?_⟩
  · intro env st content raw h
    have hp : qrConfigSafeParse raw = .error "size out of range" ∨
        qrConfigSafeParse raw = .error "margin out of range" := by
      unfold qrConfigSafeParse
      rcases h with ⟨v, hv, hb⟩ | ⟨m, hm, hb⟩
      · rw [hv]
        rw [if_pos]
        · exact Or.inl rfl
        · simpa using hb
      · rw [hm]
        by_cases hs : raw.size.getD 300 < 50 ∨ raw.size.getD 300 > 2000
        · rw [if_pos hs]; exact Or.inl rfl
        · rw [if_neg hs, if_pos]
          · exact Or.inr rfl
          · simpa using hb
    unfold handleGenerateBasic
    rcases hp with hp | hp <;> rw [hp]
  · intro raw cfg h
    unfold qrConfigSafeParse at h
    dsimp only at h
    split_ifs at h with h1 h2 h3 h4
    all_goals injection h with h
    subst h
    refine ⟨rfl, rfl, ?_, ?_, ?_, ?_⟩ <;> (dsimp only; omega)
  · intro env st content raw cfg hp hv hfmt
    unfold handleGenerateBasic
    rw [hp]
    unfold generateBasic
    rw [hv]
    dsimp only [QRConfig.toIn]
    have hne : (some cfg.format = some "svg") = False := by
      simp [hfmt]
    rw [if_neg (by simp [hfmt])]
    unfold generatePNG
    rfl

/-- C3 witness: the amended theorem applied at concrete inputs — an
out-of-range size of 5000 is rejected with the state untouched, and the
in-range request `size=120, margin=3` parses verbatim and reaches the
encoder with exactly those values. -/
theorem basic_config_bounds_enforced_witness :
    ((∃ v, ({ size := some 5000 } : QRConfigIn).size = some v ∧
        (v < 50 ∨ 2000 < v)) ∨
     (∃ m, ({ size := some 5000 } : QRConfigIn).margin = some m ∧
        (m < 0 ∨ 10 < m))) ∧
    handleGenerateBasic unitEnv "x" { size := some 5000 } (initState "t0") =
      (.error { kind := .validation, message := "Invalid basic QR configuration" },
       initState "t0") ∧
    qrConfigSafeParse { size := some 120, margin := some 3 } =
      .ok { size := 120, margin := 3, errorCorrectionLevel := "M", format := "png" } ∧
    validateContent "x" = .ok () ∧
    (handleGenerateBasic unitEnv "x" { size := some 120, margin := some 3 }
        (initState "t0")).2.encodeLog =
      [.toBuffer "x" (some 120) (some 3) (some "M")] :=
  ⟨Or.inl ⟨5000, rfl, Or.inr (by norm_num)⟩,
   (basic_config_bounds_enforced.1 unitEnv (initState "t0") "x" { size := some 5000 }
     (Or.inl ⟨5000, rfl, Or.inr (by norm_num)⟩)),
   rfl, rfl,
   (basic_config_bounds_enforced.2.2 unitEnv (initState "t0") "x"
     { size := some 120, margin := some 3 }
     { size := 120, margin := 3, errorCorrectionLevel := "M", format := "png" }
     rfl rfl rfl)⟩

/-- One statistics update increments the total count by exactly one. -/
theorem updateStatistics_total (s : Statistics) (r : QRGenerationResult)
    (t : Int) (n : String) :
    (updateStatistics s r t n).totalGenerated = s.totalGenerated + 1 := by
  unfold updateStatistics
  dsimp only
  split_ifs <;> rfl

/-- After any statistics update the generation-time window holds at most
1000 entries. -/
theorem updateStatistics_times_le (s : Statistics) (r : QRGenerationResult)
    (t : Int) (n : String) (h : s.generationTimes.length ≤ 1000) :
    (updateStatistics s r t n).generationTimes.length ≤ 1000 := by
  unfold updateStatistics lastN
  dsimp only
  split_ifs <;> dsimp only <;>
    simp only [List.length_drop, List.length_append, List.length_cons,
      List.length_nil] at * <;> omega

/-- After any statistics update the size window holds at most 1000
entries. -/
theorem updateStatistics_sizes_le (s : Statistics) (r : QRGenerationResult)
    (t : Int) (n : String) (h : s.sizes.length ≤ 1000) :
    (updateStatistics s r t n).sizes.length ≤ 1000 := by
  unfold updateStatistics lastN
  dsimp only
  split_ifs <;> dsimp only <;>
    simp only [List.length_drop, List.length_append, List.length_cons,
      List.length_nil] at * <;> omega

/-- The truncation keeps a suffix: the new time window is a suffix of the
old window with the new sample appended (oldest entries are the ones
dropped). -/
theorem updateStatistics_times_suffix (s : Statistics) (r : QRGenerationResult)
    (t : Int) (n : String) :
    (updateStatistics s r t n).generationTimes <:+ s.generationTimes ++ [t] := by
  unfold updateStatistics lastN
  dsimp only
  split_ifs <;> dsimp only <;>
    first | exact List.drop_suffix _ _ | exact List.suffix_rfl

/-- The truncation keeps a suffix on the size window as well. -/
theorem updateStatistics_sizes_suffix (s : Statistics) (r : QRGenerationResult)
    (t : Int) (n : String) :
    (updateStatistics s r t n).sizes <:+ s.sizes ++ [r.size] := by
  unfold updateStatistics lastN
  dsimp only
  split_ifs <;> dsimp only <;>
    first | exact List.drop_suffix _ _ | exact List.suffix_rfl

/-- A suffix stays a suffix after appending the same list on the right. -/
theorem suffix_append_same {α : Type} {l1 l2 : List α} (l3 : List α)
    (h : l1 <:+ l2) : l1 ++ l3 <:+ l2 ++ l3 := by
  obtain ⟨t, rfl⟩ := h
  exact ⟨t, (List.append_assoc t l1 l3).symm⟩

/-- C7: after any sequence of N successful generations (each of which calls
`updateStatistics` once), `totalGenerated` equals its prior value plus N;
both rolling windows never hold more than 1000 entries (given they start
within the bound, as they do — they start empty); and each final window is
a suffix of the old window plus the appended samples, i.e. entries are
dropped oldest-first. -/
theorem statistics_monotone_bounded (now : String) (stats : Statistics)
    (ups : List (QRGenerationResult × Int))
    (ht : stats.generationTimes.length ≤ 1000) (hs : stats.sizes.length ≤ 1000) :
    (ups.foldl (fun s p => updateStatistics s p.1 p.2 now) stats).totalGenerated
        = stats.totalGenerated + ups.length ∧
    (ups.foldl (fun s p => updateStatistics s p.1 p.2 now) stats).generationTimes.length
        ≤ 1000 ∧
    (ups.foldl (fun s p => updateStatistics s p.1 p.2 now) stats).sizes.length ≤ 1000 ∧
    (ups.foldl (fun s p => updateStatistics s p.1 p.2 now) stats).generationTimes
        <:+ stats.generationTimes ++ ups.map (fun p => p.2) ∧
    (ups.foldl (fun s p => updateStatistics s p.1 p.2 now) stats).sizes
        <:+ stats.sizes ++ ups.map (fun p => p.1.size) := by
  induction ups generalizing stats with
  | nil =>
      refine ⟨rfl, ht, hs, ?_, ?_⟩ <;> simp [List.suffix_rfl]
  | cons p rest ih =>
      have ht1 := updateStatistics_times_le stats p.1 p.2 now ht
      have hs1 := updateStatistics_sizes_le stats p.1 p.2 now hs
      obtain ⟨ih1, ih2, ih3, ih4, ih5⟩ :=
        ih (updateStatistics stats p.1 p.2 now) ht1 hs1
      rw [List.foldl_cons] at *
      refine ⟨?_, ih2, ih3, ?_, ?_⟩
      · rw [ih1, updateStatistics_total]
        simp [Nat.add_assoc, Nat.add_comm 1 rest.length]
      · refine ih4.trans ?_
        have hstep := updateStatistics_times_suffix stats p.1 p.2 now
        have := suffix_append_same (rest.map (fun p => p.2)) hstep
        rw [List.append_assoc, List.singleton_append] at this
        simpa using this
      · refine ih5.trans ?_
        have hstep := updateStatistics_sizes_suffix stats p.1 p.2 now
        have := suffix_append_same (rest.map (fun p => p.1.size)) hstep
        rw [List.append_assoc, List.singleton_append] at this
        simpa using this

/-- C7 witness: the theorem applied to the freshly-initialised statistics
(empty windows) and two concrete successful generations. -/
theorem statistics_monotone_bounded_witness :
    (initStats "t0").generationTimes.length ≤ 1000 ∧
    (initStats "t0").sizes.length ≤ 1000 ∧
    (([((generatePNG unitEnv "a" {} "p1.png" (initState "t0")).1, (5 : Int)),
       ((generatePNG unitEnv "b" {} "p2.png" (initState "t0")).1, (7 : Int))].foldl
        (fun s p => updateStatistics s p.1 p.2 "t1") (initStats "t0")).totalGenerated
      = (initStats "t0").totalGenerated + 2) :=
  ⟨by simp [initStats], by simp [initStats],
   (statistics_monotone_bounded "t1" (initStats "t0")
      [((generatePNG unitEnv "a" {} "p1.png" (initState "t0")).1, 5),
       ((generatePNG unitEnv "b" {} "p2.png" (initState "t0")).1, 7)]
      (by simp [initStats]) (by simp [initStats])).1⟩

/-- C4: round-trip.  The repository's pipeline neither transforms the
content before handing it to the external encoder (`generatePNG` passes it
verbatim and writes the returned buffer to disk) nor after decoding
(`decodeFromImage` returns `code.data` verbatim), so whenever the external
encode/decode primitives round-trip (`primRoundTrip`, the spec's assumption
on the out-of-scope QR-matrix primitives), generating a raster artifact
from any content that passes validation and decoding the written file
returns exactly the original content. -/
theorem encode_decode_round_trip (env : Env) (hrt : primRoundTrip env)
    (content : String) (st : ServerState) (hv : validateContent content = .ok ()) :
    ∃ r st2 p a, generateBasic env content {} st = (.ok r, st2) ∧
      r.filePath = some p ∧
      decodeFromImage env st2.fs p = .ok a ∧
      a.success = true ∧ a.content = some content := by
  obtain ⟨img, code, hread, hjs, hdata⟩ := hrt content none none none
  unfold generateBasic
  rw [hv]
  dsimp only
  rw [if_neg (by simp : ¬((none : Option String) = some "svg"))]
  unfold generatePNG
  dsimp only
  refine ⟨_, _, generateOutputPath env (jsOrString none "png") st.nextId,
    { success := true, content := some code.data, format := some "text",
      quality := none,
      metadata := some { version := code.version,
                         errorCorrectionLevel := code.errorCorrectionLevel,
                         maskPattern := code.maskPattern, modules := code.modules },
      error := none },
    rfl, rfl, ?_, rfl, by simp [hdata]⟩
  unfold decodeFromImage
  have hlook : List.lookup (generateOutputPath env (jsOrString none "png") st.nextId)
      ((generateOutputPath env (jsOrString none "png") st.nextId,
        env.toBuffer content none none none) :: st.fs) =
      some (env.toBuffer content none none none) := by
    simp [List.lookup]
  rw [hlook]
  dsimp only
  rw [hread]
  dsimp only
  rw [hjs]

/-- C4 witness: the unit environment's primitives round-trip by
construction, `"hi"` passes validation, and the theorem applies. -/
theorem encode_decode_round_trip_witness :
    primRoundTrip unitEnv ∧ validateContent "hi" = .ok () ∧
    (∃ r st2 p a, generateBasic unitEnv "hi" {} (initState "t0") = (.ok r, st2) ∧
      r.filePath = some p ∧
      decodeFromImage unitEnv st2.fs p = .ok a ∧
      a.success = true ∧ a.content = some "hi") :=
  have hprt : primRoundTrip unitEnv := fun s _ _ _ =>
    ⟨{ data := s, width := 300, height := 300 },
     { data := s, version := 1, errorCorrectionLevel := "M", maskPattern := 0,
       modules := 21 },
     rfl, rfl, rfl⟩
  ⟨hprt, rfl, encode_decode_round_trip unitEnv hprt "hi" (initState "t0") rfl⟩
